import Mathlib

/-!
Verification development for the tallypi repository.

The tally data model and matching logic are embedded shallowly:

* `TallyColor` / `TallyType` are the bitmask values of the external `tslumd`
  library (`OFF = 0`, `RED = 1`, `GREEN = 2`, `AMBER = 3`;
  `no_tally = 0`, `rh_tally = 1`, `txt_tally = 2`, `lh_tally = 4`,
  `all_tally = 7`), merged with bitwise or and filtered with bitwise and.
* `Screen` / `Tally` model the external `tslumd` objects to the extent the
  repository uses them (index, broadcast flag, per-type colors, `tally[tt]`).
* `SingleTallyConfig` / `MultiTallyConfig` and their operations are translated
  line by line from `src/tallypi/common.py`.
* The binding engine (`OutputState`, `bind_to_input`, `unbind_from_input`,
  `get_merged_tally`, `get_tally_color`) is translated from
  `src/tallypi/baseio.py`; Python dict/set state becomes association lists and
  raised exceptions become `Except PyErr`.

`baseio.py` calls a newer revision of the config layer
(`config.matches(tally, tally_type, return_matched)` and a `color_mask`
field) that is absent from `common.py`; that layer is modelled from the
spec as `SpecSingleTallyConfig` / `SpecMultiTallyConfig` below.
-/

/-- Colors of the external tslumd library: a bitmask over red and green. -/
abbrev TallyColor := Nat

namespace TallyColor

def OFF : TallyColor := 0

def RED : TallyColor := 1

def GREEN : TallyColor := 2

def AMBER : TallyColor := 3

end TallyColor

/-- Tally types of the external tslumd library: a bitmask over the
right-hand, text and left-hand lamps. -/
abbrev TallyType := Nat

namespace TallyType

def no_tally : TallyType := 0

def rh_tally : TallyType := 1

def txt_tally : TallyType := 2

def lh_tally : TallyType := 4

def all_tally : TallyType := 7

end TallyType

/-- A (screen_index, tally_index) pair, as used by tslumd `Tally.id`. -/
abbrev TallyKey := Nat × Nat

/-- Model of `tslumd.tallyobj.Screen`: the index, with 0xffff reserved as the
broadcast address. -/
structure Screen where
  index : Nat
deriving DecidableEq

/-- `Screen.is_broadcast` of tslumd: index equals 0xffff. -/
def Screen.is_broadcast (s : Screen) : Bool := s.index = 0xffff

/-- Model of `tslumd.tallyobj.Tally`: parent screen, index and one color per
tally type. -/
structure Tally where
  screen : Screen
  index : Nat
  rh_tally : TallyColor := 0
  txt_tally : TallyColor := 0
  lh_tally : TallyColor := 0
deriving DecidableEq

/-- `Tally.is_broadcast` of tslumd: index equals 0xffff. -/
def Tally.is_broadcast (t : Tally) : Bool := t.index = 0xffff

/-- `Tally.id` of tslumd: the (screen index, tally index) pair. -/
def Tally.id (t : Tally) : TallyKey := (t.screen.index, t.index)

/-- `tally[tally_type]` of tslumd: the merged (bitwise or) color of every lamp
selected by the (possibly compound) tally type mask. -/
def Tally.get (t : Tally) (tt : TallyType) : TallyColor :=
  (if tt &&& 1 ≠ 0 then t.rh_tally else 0) |||
  (if tt &&& 2 ≠ 0 then t.txt_tally else 0) |||
  (if tt &&& 4 ≠ 0 then t.lh_tally else 0)

/-- `SingleTallyConfig` of `src/tallypi/common.py`: one addressable tally
filter. `tally_index`/`screen_index` use `none` for the absent value. -/
structure SingleTallyConfig where
  tally_index : Option Nat
  tally_type : TallyType := TallyType.no_tally
  screen_index : Option Nat := none
  name : Option String := some ""
deriving DecidableEq

/-- `MultiTallyConfig` of `src/tallypi/common.py`. -/
structure MultiTallyConfig where
  tallies : List SingleTallyConfig := []
  screen_index : Option Nat := none
  allow_all : Bool := false
  name : Option String := some ""
deriving DecidableEq

/-- `SingleTallyConfig.tally_key`: `None` components become 0xffff. -/
def SingleTallyConfig.tally_key (c : SingleTallyConfig) : TallyKey :=
  (c.screen_index.getD 0xffff, c.tally_index.getD 0xffff)

/-- `SingleTallyConfig.is_broadcast_screen`: `screen_index in (None, 0xffff)`. -/
def SingleTallyConfig.is_broadcast_screen (c : SingleTallyConfig) : Bool :=
  c.screen_index = none ∨ c.screen_index = some 0xffff

/-- `SingleTallyConfig.is_broadcast_tally`: `tally_index in (None, 0xffff)`. -/
def SingleTallyConfig.is_broadcast_tally (c : SingleTallyConfig) : Bool :=
  c.tally_index = none ∨ c.tally_index = some 0xffff

/-- `MultiTallyConfig.is_broadcast_screen`: true when `allow_all` is false,
else `screen_index in (None, 0xffff)`. -/
def MultiTallyConfig.is_broadcast_screen (m : MultiTallyConfig) : Bool :=
  if ¬ m.allow_all then true
  else m.screen_index = none ∨ m.screen_index = some 0xffff

/-- The `Union[TallyOrMultiTallyConfig, int]` argument shape accepted by
`normalize_screen` and the `matches_screen` methods. -/
inductive ScreenArg where
  | int (n : Nat)
  | tally (t : Tally)
  | screen (s : Screen)
  | single (c : SingleTallyConfig)
  | multi (m : MultiTallyConfig)
deriving DecidableEq

/-- The `TallyOrTallyConfig` argument shape (`Tally` or `SingleTallyConfig`)
accepted by `SingleTallyConfig.matches` and `MultiTallyConfig.contains`. -/
abbrev TallyArg := Sum Tally SingleTallyConfig

/-- Embed a `TallyArg` into the wider `ScreenArg` shape. -/
def TallyArg.toScreenArg : TallyArg → ScreenArg
  | .inl t => .tally t
  | .inr c => .single c

/-- `normalize_screen` of `src/tallypi/common.py`: `None` for the broadcast
forms, else the concrete index. -/
def normalize_screen : ScreenArg → Option Nat
  | .int n => if n = 0xffff then none else some n
  | .tally t => if t.screen.is_broadcast then none else some t.screen.index
  | .screen s => if s.is_broadcast then none else some s.index
  | .single c => if c.is_broadcast_screen then none else c.screen_index
  | .multi m => if m.is_broadcast_screen then none else m.screen_index

/-- The `Union[TallyOrTallyConfig, int]` argument shape accepted by
`normalize_tally_index`. -/
inductive IndexArg where
  | int (n : Nat)
  | tally (t : Tally)
  | single (c : SingleTallyConfig)
deriving DecidableEq

/-- `normalize_tally_index` of `src/tallypi/common.py`. -/
def normalize_tally_index : IndexArg → Option Nat
  | .int n => if n = 0xffff then none else some n
  | .tally t => if t.is_broadcast then none else some t.index
  | .single c => if c.is_broadcast_tally then none else c.tally_index

/-- Index-argument view of a `TallyArg`. -/
def TallyArg.toIndexArg : TallyArg → IndexArg
  | .inl t => .tally t
  | .inr c => .single c

/-- `SingleTallyConfig.matches_screen` of `src/tallypi/common.py`: true when
self is a broadcast screen, when either normalized screen is `None`, or when
both concrete indices agree. -/
def SingleTallyConfig.matches_screen (c : SingleTallyConfig) (other : ScreenArg) : Bool :=
  if c.is_broadcast_screen then true
  else
    match normalize_screen (.single c), normalize_screen other with
    | some a, some b => a = b
    | _, _ => true

/-- `SingleTallyConfig.matches` of `src/tallypi/common.py`: screen match, then
(for config arguments) tally_type equality, then index comparison with
wildcards. -/
def SingleTallyConfig.matches (c : SingleTallyConfig) (other : TallyArg) : Bool :=
  if ¬ c.matches_screen other.toScreenArg then false
  else if (match other with
           | .inr oc => decide (c.tally_type ≠ oc.tally_type)
           | .inl _ => false) then false
  else
    match normalize_tally_index (.single c), normalize_tally_index other.toIndexArg with
    | some a, some b => a = b
    | _, _ => true

/-- `MultiTallyConfig.matches_screen` of `src/tallypi/common.py`: a
`SingleTallyConfig` argument is delegated to its own `matches_screen`, any
other argument is compared through `normalize_screen`. -/
def MultiTallyConfig.matches_screen (m : MultiTallyConfig) (other : ScreenArg) : Bool :=
  match other with
  | .single c => c.matches_screen (.multi m)
  | _ =>
    match normalize_screen (.multi m), normalize_screen other with
    | some a, some b => a = b
    | _, _ => true

/-- `MultiTallyConfig.contains` of `src/tallypi/common.py`: with `allow_all`
only the screen is checked, otherwise each entry of `tallies` is tried. -/
def MultiTallyConfig.contains (m : MultiTallyConfig) (t : TallyArg) : Bool :=
  if m.allow_all then m.matches_screen t.toScreenArg
  else m.tallies.any (fun c => c.matches t)

/-- `MultiTallyConfig.matches`, an alias for `contains`. -/
def MultiTallyConfig.matches (m : MultiTallyConfig) (t : TallyArg) : Bool :=
  m.contains t

/-- Dict produced by `SingleTallyConfig.to_dict`: `dataclasses.asdict` with the
`tally_type` replaced by its `.name` attribute (which is `None` for compound
masks that are not named members). -/
structure SingleTallyDict where
  tally_index : Option Nat
  tally_type : Option String
  screen_index : Option Nat
  name : Option String
deriving DecidableEq

/-- The `.name` attribute of a `TallyType` value: defined for the named
members, `None` for other masks. -/
def TallyType.memName (tt : TallyType) : Option String :=
  if tt = 0 then some "no_tally"
  else if tt = 1 then some "rh_tally"
  else if tt = 2 then some "txt_tally"
  else if tt = 4 then some "lh_tally"
  else if tt = 7 then some "all_tally"
  else none

/-- `getattr(TallyType, name)`: the member with the given name, a failure
(`none`) otherwise. -/
def TallyType.fromName (s : String) : Option TallyType :=
  if s = "no_tally" then some 0
  else if s = "rh_tally" then some 1
  else if s = "txt_tally" then some 2
  else if s = "lh_tally" then some 4
  else if s = "all_tally" then some 7
  else none

/-- `SingleTallyConfig.to_dict` of `src/tallypi/common.py`. -/
def SingleTallyConfig.to_dict (c : SingleTallyConfig) : SingleTallyDict :=
  ⟨c.tally_index, TallyType.memName c.tally_type, c.screen_index, c.name⟩

/-- `SingleTallyConfig.from_dict` of `src/tallypi/common.py`; `none` models
the exception raised by `getattr(TallyType, x)` on a bad (or `None`) name. -/
def SingleTallyConfig.from_dict (d : SingleTallyDict) : Option SingleTallyConfig :=
  match d.tally_type with
  | none => none
  | some s =>
    match TallyType.fromName s with
    | none => none
    | some tt => some ⟨d.tally_index, tt, d.screen_index, d.name⟩

/-- Dict produced by `MultiTallyConfig.to_dict`: the source builds a dict with
exactly the keys `tallies` and `allow_all`. -/
structure MultiTallyDict where
  tallies : List SingleTallyDict
  allow_all : Bool
deriving DecidableEq

/-- `MultiTallyConfig.to_dict` of `src/tallypi/common.py`. -/
def MultiTallyConfig.to_dict (m : MultiTallyConfig) : MultiTallyDict :=
  ⟨m.tallies.map SingleTallyConfig.to_dict, m.allow_all⟩

/-- The list comprehension `[SingleTallyConfig.from_dict(td) for td in tallies]`:
any failure propagates. -/
def SingleTallyConfig.from_dict_list : List SingleTallyDict → Option (List SingleTallyConfig)
  | [] => some []
  | d :: ds =>
    match SingleTallyConfig.from_dict d, SingleTallyConfig.from_dict_list ds with
    | some c, some cs => some (c :: cs)
    | _, _ => none

/-- `MultiTallyConfig.from_dict` of `src/tallypi/common.py`: deserializes the
`tallies` entries and constructs the dataclass, whose `screen_index` and
`name` fields keep their defaults (`None` and the empty string). -/
def MultiTallyConfig.from_dict (d : MultiTallyDict) : Option MultiTallyConfig :=
  (SingleTallyConfig.from_dict_list d.tallies).map
    (fun ts => { tallies := ts, screen_index := none, allow_all := d.allow_all, name := some "" })

/-- Modelled from the spec: the newer-revision `SingleTallyConfig` used by
`src/tallypi/baseio.py` but absent from the `common.py` under `src/`. Spec §3
adds a `color_mask` field with "default = full mask, i.e. no restriction". -/
structure SpecSingleTallyConfig where
  tally_index : Option Nat
  tally_type : TallyType := TallyType.no_tally
  color_mask : TallyColor := TallyColor.AMBER
  screen_index : Option Nat := none
  name : Option String := some ""
deriving DecidableEq

/-- Modelled from the spec: the newer-revision `MultiTallyConfig` companion of
`SpecSingleTallyConfig` (spec §3, §4.3). The memo cache described by the spec
is a pure matching-result cache ("never authoritative state") and is omitted. -/
structure SpecMultiTallyConfig where
  tallies : List SpecSingleTallyConfig := []
  screen_index : Option Nat := none
  allow_all : Bool := false
  name : Option String := some ""
deriving DecidableEq

/-- `tally_key` of the spec-modelled config: `None` components become 0xffff. -/
def SpecSingleTallyConfig.tally_key (c : SpecSingleTallyConfig) : TallyKey :=
  (c.screen_index.getD 0xffff, c.tally_index.getD 0xffff)

/-- Broadcast-screen test of the spec-modelled config. -/
def SpecSingleTallyConfig.is_broadcast_screen (c : SpecSingleTallyConfig) : Bool :=
  c.screen_index = none ∨ c.screen_index = some 0xffff

/-- Broadcast-tally test of the spec-modelled config. -/
def SpecSingleTallyConfig.is_broadcast_tally (c : SpecSingleTallyConfig) : Bool :=
  c.tally_index = none ∨ c.tally_index = some 0xffff

/-- Argument shape of the spec-modelled `matches`: a `Tally`, another config,
or a raw `TallyKey` (spec §4.2, and `BaseIO.tally_matches` in baseio.py). -/
inductive SpecMatchArg where
  | tally (t : Tally)
  | conf (c : SpecSingleTallyConfig)
  | key (k : TallyKey)
deriving DecidableEq

/-- Normalized screen of a spec-modelled match argument: `None` for the
broadcast forms (spec §4.1). -/
def SpecMatchArg.normScreen : SpecMatchArg → Option Nat
  | .tally t => if t.screen.is_broadcast then none else some t.screen.index
  | .conf c => if c.is_broadcast_screen then none else c.screen_index
  | .key k => if k.1 = 0xffff then none else some k.1

/-- Normalized tally index of a spec-modelled match argument (spec §4.1). -/
def SpecMatchArg.normIndex : SpecMatchArg → Option Nat
  | .tally t => if t.is_broadcast then none else some t.index
  | .conf c => if c.is_broadcast_tally then none else c.tally_index
  | .key k => if k.2 = 0xffff then none else some k.2

/-- Modelled from the spec (§4.2 `matches_screen`): broadcast self always
matches; otherwise normalize both sides, a wildcard on either side matches,
else numeric equality. -/
def SpecSingleTallyConfig.matches_screen (c : SpecSingleTallyConfig) (other : SpecMatchArg) : Bool :=
  if c.is_broadcast_screen then true
  else
    match c.screen_index, other.normScreen with
    | some a, some b => a = b
    | _, _ => true

/-- Modelled from the spec (§4.2): the five steps of the newer
`SingleTallyConfig.matches(other, tally_type, return_matched)`. The
`return_matched=True` result (the matched filter itself) is the `some` case. -/
def SpecSingleTallyConfig.matches (c : SpecSingleTallyConfig) (other : SpecMatchArg)
    (tt : TallyType) : Option SpecSingleTallyConfig :=
  if ¬ c.matches_screen other then none
  else if (match other with
           | .conf oc => decide (c.tally_type &&& oc.tally_type = 0)
           | _ => false) then none
  else if c.tally_type &&& tt = 0 then none
  else
    match (SpecMatchArg.conf c).normIndex, other.normIndex with
    | some a, some b => if a = b then some c else none
    | _, _ => some c

/-- The key carried by a spec-modelled match argument. -/
def SpecMatchArg.key_of : SpecMatchArg → TallyKey
  | .tally t => t.id
  | .conf c => c.tally_key
  | .key k => k

/-- Modelled from the spec (§4.3): the newer
`MultiTallyConfig.matches(tally_or_key, tally_type, return_matched)`. With
`allow_all`, on a screen match a `SingleTallyConfig` representing the match is
synthesized from the argument's key and the requested type; otherwise the
first entry of `tallies` whose `matches` succeeds is returned. -/
def SpecMultiTallyConfig.matches (m : SpecMultiTallyConfig) (other : SpecMatchArg)
    (tt : TallyType) : Option SpecSingleTallyConfig :=
  if m.allow_all then
    let mScreen : Option Nat :=
      if m.screen_index = none ∨ m.screen_index = some 0xffff then none else m.screen_index
    let screenOk : Bool :=
      match mScreen, other.normScreen with
      | some a, some b => a = b
      | _, _ => true
    if screenOk then
      some { tally_index := some other.key_of.2, tally_type := tt,
             color_mask := TallyColor.AMBER, screen_index := some other.key_of.1,
             name := some "" }
    else none
  else
    m.tallies.findSome? (fun c => c.matches other tt)

/-- A `BaseIO.config` of baseio.py: either variant of the (spec-modelled)
newer config layer. -/
abbrev TConfig := Sum SpecSingleTallyConfig SpecMultiTallyConfig

/-- `self.config.matches(tally, tally_type, return_matched=True)`, dispatched
over the config variant. -/
def TConfig.matches (c : TConfig) (other : SpecMatchArg) (tt : TallyType) :
    Option SpecSingleTallyConfig :=
  match c with
  | .inl s => s.matches other tt
  | .inr m => m.matches other tt

/-- Python exceptions that the embedded baseio.py code can raise. -/
inductive PyErr where
  | keyError
  | attributeError
  | assertionError
deriving DecidableEq

/-- Association-list lookup, modelling Python `d.get(k)` / `d[k]`. -/
def lookupA {α β : Type} [DecidableEq α] (l : List (α × β)) (k : α) : Option β :=
  (l.find? (fun p => p.1 = k)).map Prod.snd

/-- Association-list update at an existing key, modelling `d[k] = v`. -/
def setA {α β : Type} [DecidableEq α] (l : List (α × β)) (k : α) (v : β) : List (α × β) :=
  l.map (fun p => if p.1 = k then (k, v) else p)

/-- State of a `BaseInput` of baseio.py: the `id` (assigned at most once, so
possibly `None`), the `config`, and the tallies the device currently knows
(`get_all_tallies`). -/
structure InputState where
  id : Option String
  config : TConfig
  tallies : List Tally
deriving DecidableEq

/-- `BaseInput.get_tally(tally_key)`: the input's tally with the given key,
`None` when unknown. -/
def InputState.get_tally (inp : InputState) (k : TallyKey) : Option Tally :=
  inp.tallies.find? (fun t => t.id = k)

/-- `BaseIO.tally_matches(tally, tally_type, return_matched)` of baseio.py:
delegates to `self.config.matches`. -/
def InputState.tally_matches (inp : InputState) (other : SpecMatchArg) (tt : TallyType) :
    Option SpecSingleTallyConfig :=
  inp.config.matches other tt

/-- `BaseInput.get_tally_color(tally_key, tally_type)` of baseio.py: `None`
unless the config matches; then the matched config's key is looked up and the
color filtered by the matched `tally_type` and `color_mask`. The implicit
fall-through when no tally is stored returns `None`. -/
def InputState.get_tally_color (inp : InputState) (k : TallyKey) (tt : TallyType) :
    Option TallyColor :=
  match inp.tally_matches (.key k) tt with
  | none => none
  | some tally_conf =>
    match inp.get_tally tally_conf.tally_key with
    | none => none
    | some tally =>
      let ttype := tally_conf.tally_type &&& tt
      if ttype = TallyType.no_tally then none
      else some (tally.get ttype &&& tally_conf.color_mask)

/-- State of a `BaseOutput` of baseio.py: its `config`, the `bound_inputs`
dict (id to input) and the `bound_input_tally_keys` dict (tally key to set of
input ids), both as association lists. -/
structure OutputState where
  config : TConfig
  bound_inputs : List (String × InputState)
  bound_input_tally_keys : List (TallyKey × List String)
deriving DecidableEq

/-- `BaseOutput.bind_to_tally(inp, tally)` of baseio.py, state part: record
`inp.id` under `bound_input_tally_keys[tally.id]`, creating the set if absent
(set add: no duplicate is inserted). -/
def OutputState.bind_to_tally (o : OutputState) (id : String) (tally : Tally) : OutputState :=
  let key := tally.id
  match lookupA o.bound_input_tally_keys key with
  | none => { o with bound_input_tally_keys := o.bound_input_tally_keys ++ [(key, [id])] }
  | some s =>
    let v := if id ∈ s then s else s ++ [id]
    { o with bound_input_tally_keys := setA o.bound_input_tally_keys key v }

/-- Python membership test `inp.id in self.bound_input_tally_keys`: a `str`
never equals a `TallyKey` tuple, so the test is false on every key. -/
def strInTallyKeys (_ : String) (_ : List (TallyKey × List String)) : Bool := false

/-- One iteration of the tally loop of `bind_to_input`: `bind_to_tally` when
`self.tally_matches(tally)` succeeds (default `tally_type=all_tally`),
otherwise skip. -/
def bindStep (id : String) (st : OutputState) (tally : Tally) : OutputState :=
  if (st.config.matches (.tally tally) TallyType.all_tally).isSome then
    st.bind_to_tally id tally
  else st

/-- `BaseOutput.bind_to_input(inp)` of baseio.py, run sequentially: no-op when
the id is already bound; then the three assertions; then the input is stored
and `bind_to_tally` runs for every tally of the input that matches the
output's config. -/
def OutputState.bind_to_input (o : OutputState) (inp : InputState) :
    Except PyErr OutputState :=
  if o.bound_inputs.any (fun p => some p.1 = inp.id) then .ok o
  else
    match inp.id with
    | none => .error .assertionError
    | some id =>
      if (lookupA o.bound_inputs id).isSome then .error .assertionError
      else if strInTallyKeys id o.bound_input_tally_keys then .error .assertionError
      else
        let o1 : OutputState := { o with bound_inputs := o.bound_inputs ++ [(id, inp)] }
        .ok (inp.tallies.foldl (bindStep id) o1)

/-- `BaseOutput.unbind_from_input(inp)` of baseio.py. The source iterates
`for s in self.bound_input_tally_keys`, which yields the dict's KEYS
(`TallyKey` tuples); `s.discard(inp.id)` then raises `AttributeError` on the
first key, because tuples have no `discard` method. Only with an empty dict
does control reach `del self.bound_inputs[inp.id]` (a `KeyError` when the id
is not bound). -/
def OutputState.unbind_from_input (o : OutputState) (inp : InputState) :
    Except PyErr OutputState :=
  if o.bound_input_tally_keys ≠ [] then .error .attributeError
  else
    match inp.id with
    | none => .error .keyError
    | some id =>
      if (lookupA o.bound_inputs id).isSome then
        .ok { o with bound_inputs := o.bound_inputs.filter (fun p => ¬ p.1 = id) }
      else .error .keyError

/-- `BaseOutput.get_all_input_tallies(tally_key)` ids: the set stored under
the key, defaulting to the empty set. -/
def OutputState.idsUnder (o : OutputState) (k : TallyKey) : List String :=
  (lookupA o.bound_input_tally_keys k).getD []

/-- `BaseOutput.get_merged_tally(tally, tally_type)` of baseio.py: starting
from `OFF` (or the passed live tally's own color), OR in
`inp.get_tally_color` for every input yielded by `get_all_input_tallies`
(those ids recorded under the key whose input stores a tally at the key;
`bound_inputs[key]` raises `KeyError` for an unbound id). -/
def OutputState.get_merged_tally (o : OutputState) (tally : Sum TallyKey Tally)
    (tt : TallyType) : Except PyErr TallyColor :=
  let start : TallyKey × TallyColor :=
    match tally with
    | .inl k => (k, TallyColor.OFF)
    | .inr t => (t.id, TallyColor.OFF ||| t.get tt)
  (o.idsUnder start.1).foldlM
    (fun acc id =>
      match lookupA o.bound_inputs id with
      | none => .error .keyError
      | some inp =>
        match inp.get_tally start.1 with
        | none => pure acc
        | some _ =>
          match inp.get_tally_color start.1 tt with
          | none => pure acc
          | some color => pure (acc ||| color))
    start.2

/-- The spec's description of `get_merged_tally` on a bare key (spec §4.5 and
claim C1): the bitwise OR, starting from `off`, of `get_tally_color(k, t)`
over every bound input whose id is recorded under `k`, `None` results
contributing nothing. -/
def OutputState.mergedTallySpec (o : OutputState) (k : TallyKey) (tt : TallyType) : TallyColor :=
  (o.idsUnder k).foldl
    (fun acc id =>
      match (lookupA o.bound_inputs id).bind (fun inp => inp.get_tally_color k tt) with
      | none => acc
      | some color => acc ||| color)
    TallyColor.OFF

/-- `BaseIO.__init_subclass__` of baseio.py, registry part: nothing happens
without a `namespace` keyword; the class namespace is the parent namespace
(when one exists below `BaseIO`) dotted with the keyword; a `final` class is
registered, with `assert cls_namespace not in BaseIO.__subclass_map` firing
before the insertion. Classes are identified by name strings. -/
def initSubclassRegister (m : List (String × String)) (parent : Option String)
    (ns : Option String) (final : Bool) (cls : String) :
    Except PyErr (List (String × String)) :=
  match ns with
  | none => .ok m
  | some n =>
    let cls_namespace := match parent with
      | some p => p ++ "." ++ n
      | none => n
    if final then
      if (lookupA m cls_namespace).isSome then .error .assertionError
      else .ok (m ++ [(cls_namespace, cls)])
    else .ok m

/-- `BaseIO.get_class_for_namespace` of baseio.py: `cls.__subclass_map[namespace]`,
a `KeyError` when the namespace was never registered. -/
def get_class_for_namespace (m : List (String × String)) (ns : String) :
    Except PyErr String :=
  match lookupA m ns with
  | some c => .ok c
  | none => .error .keyError

/-- Concrete input used by the C4 evaluation: id "i", a single-tally config,
one tally at key (0, 0). -/
def inpC4 : InputState :=
  { id := some "i",
    config := .inl { tally_index := some 0, tally_type := TallyType.rh_tally,
                     color_mask := TallyColor.RED, screen_index := some 0, name := some "" },
    tallies := [{ screen := ⟨0⟩, index := 0, rh_tally := TallyColor.RED }] }

/-- Concrete output used by the C4 evaluation: `inpC4` is bound and its tally
key is tracked, so `bound_input_tally_keys` is non-empty. -/
def outC4 : OutputState :=
  { config := .inl { tally_index := some 0, tally_type := TallyType.rh_tally,
                     color_mask := TallyColor.AMBER, screen_index := some 0, name := some "" },
    bound_inputs := [("i", inpC4)],
    bound_input_tally_keys := [((0, 0), ["i"])] }

/-- A field value and its broadcast-interchanged form: equal, or both drawn
from the two broadcast spellings `None` and 0xffff. -/
def wildcardEquiv (a b : Option Nat) : Prop :=
  a = b ∨ ((a = none ∨ a = some 0xffff) ∧ (b = none ∨ b = some 0xffff))

/-- Two configs that differ at most by swapping `None` and 0xffff in
`screen_index` and `tally_index`. -/
def SingleTallyConfig.wildcardTwin (c c' : SingleTallyConfig) : Prop :=
  wildcardEquiv c.screen_index c'.screen_index ∧
  wildcardEquiv c.tally_index c'.tally_index ∧
  c.tally_type = c'.tally_type ∧ c.name = c'.name

/-- Concrete input used by the C7 and C10 witnesses. -/
def inpW : InputState :=
  { id := some "i",
    config := .inl { tally_index := some 0, tally_type := TallyType.rh_tally,
                     color_mask := TallyColor.AMBER, screen_index := some 0, name := some "" },
    tallies := [{ screen := ⟨0⟩, index := 0, rh_tally := TallyColor.RED }] }

/-- Concrete empty output used by the C7 and C10 witnesses. -/
def outW : OutputState :=
  { config := .inl { tally_index := some 0, tally_type := TallyType.rh_tally,
                     color_mask := TallyColor.AMBER, screen_index := some 0, name := some "" },
    bound_inputs := [], bound_input_tally_keys := [] }

/-- Input with an unassigned id, used by the C10 witness. -/
def inpNoId : InputState :=
  { id := none,
    config := .inl { tally_index := some 0, tally_type := TallyType.rh_tally,
                     color_mask := TallyColor.AMBER, screen_index := some 0, name := some "" },
    tallies := [] }

/-- Input of the merge scenario whose config restricts to `color_mask=RED`;
its tally at (0, 0) reports fully on (`AMBER`). -/
def inpR : InputState :=
  { id := some "r",
    config := .inl { tally_index := some 0, tally_type := TallyType.rh_tally,
                     color_mask := TallyColor.RED, screen_index := some 0, name := some "" },
    tallies := [{ screen := ⟨0⟩, index := 0, rh_tally := TallyColor.AMBER }] }

/-- Input of the merge scenario whose config restricts to `color_mask=GREEN`;
its tally at (0, 0) reports fully on (`AMBER`). -/
def inpG : InputState :=
  { id := some "g",
    config := .inl { tally_index := some 0, tally_type := TallyType.rh_tally,
                     color_mask := TallyColor.GREEN, screen_index := some 0, name := some "" },
    tallies := [{ screen := ⟨0⟩, index := 0, rh_tally := TallyColor.AMBER }] }

/-- Output with both scenario inputs bound and key (0, 0) tracked for both. -/
def outOn : OutputState :=
  { config := .inl { tally_index := some 0, tally_type := TallyType.rh_tally,
                     color_mask := TallyColor.AMBER, screen_index := some 0, name := some "" },
    bound_inputs := [("r", inpR), ("g", inpG)],
    bound_input_tally_keys := [((0, 0), ["r", "g"])] }

/-- The same two bound inputs with both tallies reporting off. -/
def outOff : OutputState :=
  { config := .inl { tally_index := some 0, tally_type := TallyType.rh_tally,
                     color_mask := TallyColor.AMBER, screen_index := some 0, name := some "" },
    bound_inputs :=
      [("r", { inpR with tallies := [{ screen := ⟨0⟩, index := 0, rh_tally := TallyColor.OFF }] }),
       ("g", { inpG with tallies := [{ screen := ⟨0⟩, index := 0, rh_tally := TallyColor.OFF }] })],
    bound_input_tally_keys := [((0, 0), ["r", "g"])] }

example : (SingleTallyConfig.mk (some 3) 1 none (some "")).matches_screen (.int 7) = true := by decide

example : (SingleTallyConfig.mk (some 3) 1 (some 2) (some "")).matches_screen (.int 7) = false := by decide

example : (SingleTallyConfig.mk (some 3) 1 (some 2) (some "")).matches_screen (.int 0xffff) = true := by decide

example :
    (SingleTallyConfig.mk (some 3) 1 (some 2) (some "")).matches
      (.inr (SingleTallyConfig.mk (some 3) 1 (some 2) (some ""))) = true := by decide

example :
    (SingleTallyConfig.mk (some 3) 1 (some 2) (some "")).matches
      (.inr (SingleTallyConfig.mk (some 3) 3 (some 2) (some ""))) = false := by decide

example :
    SingleTallyConfig.from_dict (SingleTallyConfig.mk (some 3) 4 (some 2) (some "x")).to_dict
      = some (SingleTallyConfig.mk (some 3) 4 (some 2) (some "x")) := by decide

example :
    (SpecSingleTallyConfig.mk (some 0) 1 1 (some 0) (some "")).matches (.key (0, 0)) 1
      = some (SpecSingleTallyConfig.mk (some 0) 1 1 (some 0) (some "")) := by decide

example :
    (SpecSingleTallyConfig.mk (some 0) 1 1 (some 0) (some "")).matches (.key (0, 1)) 1
      = none := by decide

example :
    (SpecSingleTallyConfig.mk (some 0) 1 1 (some 0) (some "")).matches (.key (0, 0)) 2
      = none := by decide

/-- C3: the claim says `SingleTallyConfig.matches` succeeds whenever the two
tally_type masks have a non-empty intersection, but the code at
common.py:158-160 demands equality of the masks: with `rh_tally` against
`rh_tally|txt_tally` (intersection `rh_tally`, non-empty) at the same screen
and index, `matches` returns false. -/
theorem singleTallyConfig_matches_requires_type_equality :
    (SingleTallyConfig.mk (some 0) TallyType.rh_tally (some 0) (some "")).matches
        (.inr (SingleTallyConfig.mk (some 0)
          (TallyType.rh_tally ||| TallyType.txt_tally) (some 0) (some ""))) = false
    ∧ TallyType.rh_tally &&& (TallyType.rh_tally ||| TallyType.txt_tally)
        ≠ TallyType.no_tally := by
  decide

/-- C5: the claim says a `no_tally` (zero-mask) config never matches anything,
but under the equality test of common.py:158-160 a `no_tally` config matches
another `no_tally` config at the same screen and index, and the tally_type is
not consulted at all for a `Tally` argument, so a `no_tally` config also
matches a plain `Tally` there. -/
theorem no_tally_config_matches_itself :
    (SingleTallyConfig.mk (some 0) TallyType.no_tally (some 0) (some "")).matches
        (.inr (SingleTallyConfig.mk (some 0) TallyType.no_tally (some 0) (some ""))) = true
    ∧ (SingleTallyConfig.mk (some 0) TallyType.no_tally (some 0) (some "")).matches
        (.inl { screen := ⟨0⟩, index := 0, rh_tally := TallyColor.RED }) = true := by
  decide

/-- C4: the claim says that after `unbind_from_input(x)` the id is gone from
`bound_inputs` and from every tracked set, in particular when
`bound_input_tally_keys` is non-empty; but baseio.py:361 iterates the dict's
keys (`TallyKey` tuples) instead of its values, so `s.discard(inp.id)` raises
`AttributeError` on the first key and the id is never removed. -/
theorem unbind_from_input_raises_attributeError :
    outC4.bound_input_tally_keys ≠ []
    ∧ lookupA outC4.bound_inputs "i" = some inpC4
    ∧ outC4.unbind_from_input inpC4 = .error .attributeError := by
  refine ⟨by decide, by decide, rfl⟩

/-- C9: registering a final subclass under an already-registered namespace
fails with the assertion at baseio.py:81 (which fires before the map insert,
so the registry is unchanged), while `get_class_for_namespace` raises
`KeyError` for an unknown namespace and returns the registered class name
otherwise. -/
theorem namespace_registry_contract :
    (∀ (m : List (String × String)) (n cls : String),
        (lookupA m n).isSome = true →
        initSubclassRegister m none (some n) true cls = .error .assertionError)
    ∧ (∀ (m : List (String × String)) (ns : String),
        lookupA m ns = none → get_class_for_namespace m ns = .error .keyError)
    ∧ (∀ (m : List (String × String)) (ns cls : String),
        lookupA m ns = some cls → get_class_for_namespace m ns = .ok cls) := by
  refine ⟨fun m n cls h => ?_, fun m ns h => ?_, fun m ns cls h => ?_⟩
  · simp [initSubclassRegister, h]
  · simp [get_class_for_namespace, h]
  · simp [get_class_for_namespace, h]

/-- C9 witness: the contract evaluated on a one-entry registry. -/
theorem namespace_registry_contract_witness :
    initSubclassRegister [("input.gpio", "GpioInput")] none (some "input.gpio") true "Other"
        = .error .assertionError
    ∧ get_class_for_namespace [("input.gpio", "GpioInput")] "output.gpio"
        = .error .keyError
    ∧ get_class_for_namespace [("input.gpio", "GpioInput")] "input.gpio"
        = .ok "GpioInput" :=
  ⟨namespace_registry_contract.1 _ "input.gpio" "Other" (by decide),
   namespace_registry_contract.2.1 _ "output.gpio" (by decide),
   namespace_registry_contract.2.2 _ "input.gpio" "GpioInput" (by decide)⟩

theorem ttName_fromName (tt : TallyType) (s : String)
    (h : TallyType.memName tt = some s) : TallyType.fromName s = some tt := by
  unfold TallyType.memName at h
  split_ifs at h with h0 h1 h2 h3 h4 <;> cases h <;> subst_eqs <;> decide

theorem single_roundtrip (c : SingleTallyConfig)
    (h : (TallyType.memName c.tally_type).isSome = true) :
    SingleTallyConfig.from_dict c.to_dict = some c := by
  obtain ⟨s, hs⟩ := Option.isSome_iff_exists.mp h
  simp [SingleTallyConfig.to_dict, SingleTallyConfig.from_dict, hs,
    ttName_fromName c.tally_type s hs]

theorem from_dict_list_roundtrip (l : List SingleTallyConfig)
    (h : ∀ t ∈ l, (TallyType.memName t.tally_type).isSome = true) :
    SingleTallyConfig.from_dict_list (l.map SingleTallyConfig.to_dict) = some l := by
  induction l with
  | nil => rfl
  | cons hd tl ih =>
    have hhd := single_roundtrip hd (h hd (by simp))
    have htl := ih (fun t ht => h t (by simp [ht]))
    simp [SingleTallyConfig.from_dict_list, hhd, htl]

/-- C2 counterexample: `MultiTallyConfig.to_dict` (common.py:338-340) builds a
dict with only the `tallies` and `allow_all` keys, so a config with
`screen_index=5` deserializes back with `screen_index=None` and the round
trip does not return the original. -/
theorem multiTallyConfig_roundtrip_drops_screen_index :
    MultiTallyConfig.from_dict (MultiTallyConfig.mk [] (some 5) false (some "")).to_dict
      ≠ some (MultiTallyConfig.mk [] (some 5) false (some "")) := by
  decide

/-- C2 amended: `from_dict(to_dict(c)) = c` holds for every
`SingleTallyConfig` whose `tally_type` is a named TallyType member, and for a
`MultiTallyConfig` exactly under the additional condition that its
`screen_index` is `None` and its `name` is the empty string, because `to_dict`
serializes only `tallies` and `allow_all`. -/
theorem tallyConfig_roundtrip_amended :
    (∀ c : SingleTallyConfig, (TallyType.memName c.tally_type).isSome = true →
        SingleTallyConfig.from_dict c.to_dict = some c)
    ∧ (∀ m : MultiTallyConfig,
        (∀ t ∈ m.tallies, (TallyType.memName t.tally_type).isSome = true) →
        (MultiTallyConfig.from_dict m.to_dict = some m ↔
          (m.screen_index = none ∧ m.name = some ""))) := by
  constructor
  · exact single_roundtrip
  · intro m h
    obtain ⟨ts, si, aa, nm⟩ := m
    simp only [MultiTallyConfig.to_dict, MultiTallyConfig.from_dict]
    rw [from_dict_list_roundtrip ts h]
    constructor
    · intro hEq
      injection hEq with h1
      injection h1 with g1 g2 g3 g4
      exact ⟨g2.symm, g4.symm⟩
    · rintro ⟨h2, h4⟩
      subst h2
      subst h4
      rfl

/-- C2 witness: the amended round trip evaluated on concrete configs. -/
theorem tallyConfig_roundtrip_amended_witness :
    SingleTallyConfig.from_dict
        (SingleTallyConfig.mk (some 1) TallyType.lh_tally (some 2) (some "cam")).to_dict
      = some (SingleTallyConfig.mk (some 1) TallyType.lh_tally (some 2) (some "cam"))
    ∧ (MultiTallyConfig.from_dict
          (MultiTallyConfig.mk [SingleTallyConfig.mk (some 1) TallyType.rh_tally none (some "")]
            none true (some "")).to_dict
        = some (MultiTallyConfig.mk
            [SingleTallyConfig.mk (some 1) TallyType.rh_tally none (some "")]
            none true (some "")) ↔ (none = (none : Option Nat) ∧ some "" = some "")) :=
  ⟨tallyConfig_roundtrip_amended.1 _ (by decide),
   tallyConfig_roundtrip_amended.2 _ (by decide)⟩

/-- C6: with `allow_all=True`, `MultiTallyConfig.contains` (and its alias
`matches`) checks only the screen: with `screen_index=None` every
`SingleTallyConfig` or `Tally` is contained; with `screen_index=k` (a
concrete screen, below the broadcast address) exactly the arguments whose
normalized screen is the wildcard or `k` are contained, and an argument on
screen `k+1` never is; and the result is independent of `tallies`. -/
theorem multiTallyConfig_allow_all_screen_filter :
    ∀ m : MultiTallyConfig, m.allow_all = true →
      ((m.screen_index = none → ∀ t : TallyArg, m.contains t = true)
      ∧ (∀ k : Nat, k < 0xffff → m.screen_index = some k →
          ∀ t : TallyArg,
            (m.contains t = true ↔
              (normalize_screen t.toScreenArg = none ∨
               normalize_screen t.toScreenArg = some k))
            ∧ (normalize_screen t.toScreenArg = some (k + 1) → m.contains t = false))
      ∧ (∀ (ts : List SingleTallyConfig) (t : TallyArg),
          MultiTallyConfig.contains { m with tallies := ts } t = m.contains t)) := by
  intro m hAll
  refine ⟨?_, ?_, ?_⟩
  · intro hsi t
    cases t with
    | inl tally =>
      simp [MultiTallyConfig.contains, MultiTallyConfig.matches_screen,
        TallyArg.toScreenArg, normalize_screen, MultiTallyConfig.is_broadcast_screen,
        hAll, hsi]
    | inr c =>
      simp only [MultiTallyConfig.contains, hAll, if_true, TallyArg.toScreenArg,
        MultiTallyConfig.matches_screen, SingleTallyConfig.matches_screen]
      by_cases hbc : c.is_broadcast_screen = true
      · simp [hbc]
      · simp [hbc, normalize_screen, MultiTallyConfig.is_broadcast_screen, hAll, hsi]
  · intro k hk hsi t
    have hnm : normalize_screen (.multi m) = some k := by
      simp [normalize_screen, MultiTallyConfig.is_broadcast_screen, hAll, hsi]
      omega
    have hiff : m.contains t = true ↔
        (normalize_screen t.toScreenArg = none ∨ normalize_screen t.toScreenArg = some k) := by
      cases t with
      | inl tally =>
        simp only [MultiTallyConfig.contains, hAll, if_true, TallyArg.toScreenArg,
          MultiTallyConfig.matches_screen, hnm]
        cases hns : normalize_screen (.tally tally) with
        | none => simp
        | some b => simp [eq_comm]
      | inr c =>
        simp only [MultiTallyConfig.contains, hAll, if_true, TallyArg.toScreenArg,
          MultiTallyConfig.matches_screen, SingleTallyConfig.matches_screen]
        by_cases hbc : c.is_broadcast_screen = true
        · simp [hbc, normalize_screen]
        · have hcs : normalize_screen (.single c) = c.screen_index := by
            simp [normalize_screen, hbc]
          rcases hsome : c.screen_index with _ | j
          · exact absurd (by simp [SingleTallyConfig.is_broadcast_screen, hsome]) hbc
          · simp [hbc, hcs, hnm, hsome, eq_comm]
    refine ⟨hiff, ?_⟩
    intro hn
    cases hco : m.contains t with
    | false => rfl
    | true =>
      rcases hiff.mp hco with h | h
      · rw [hn] at h
        cases h
      · rw [hn] at h
        have : k + 1 = k := by injection h
        omega
  · intro ts t
    cases t with
    | inl tally =>
      simp [MultiTallyConfig.contains, MultiTallyConfig.matches_screen,
        TallyArg.toScreenArg, normalize_screen, MultiTallyConfig.is_broadcast_screen, hAll]
    | inr c =>
      simp [MultiTallyConfig.contains, MultiTallyConfig.matches_screen,
        TallyArg.toScreenArg, SingleTallyConfig.matches_screen, normalize_screen,
        MultiTallyConfig.is_broadcast_screen, hAll]

/-- C6 witness: the filter evaluated for an `allow_all` config on screen 2
against configs on screens 2, 3 and the broadcast screen. -/
theorem multiTallyConfig_allow_all_screen_filter_witness :
    (MultiTallyConfig.mk [] none true (some "")).contains
        (.inr (SingleTallyConfig.mk (some 4) TallyType.rh_tally (some 9) (some ""))) = true
    ∧ ((MultiTallyConfig.mk [] (some 2) true (some "")).contains
          (.inr (SingleTallyConfig.mk (some 4) TallyType.rh_tally (some 2) (some ""))) = true ↔
        (normalize_screen (TallyArg.toScreenArg
            (.inr (SingleTallyConfig.mk (some 4) TallyType.rh_tally (some 2) (some "")))) = none ∨
         normalize_screen (TallyArg.toScreenArg
            (.inr (SingleTallyConfig.mk (some 4) TallyType.rh_tally (some 2) (some "")))) = some 2))
    ∧ (normalize_screen (TallyArg.toScreenArg
          (.inr (SingleTallyConfig.mk (some 4) TallyType.rh_tally (some 3) (some "")))) = some 3 →
        (MultiTallyConfig.mk [] (some 2) true (some "")).contains
          (.inr (SingleTallyConfig.mk (some 4) TallyType.rh_tally (some 3) (some ""))) = false)
    ∧ MultiTallyConfig.contains
        (MultiTallyConfig.mk [SingleTallyConfig.mk (some 1) TallyType.rh_tally none (some "")]
          (some 2) true (some ""))
        (.inl { screen := ⟨2⟩, index := 0 }) =
      (MultiTallyConfig.mk [] (some 2) true (some "")).contains
        (.inl { screen := ⟨2⟩, index := 0 }) :=
  ⟨(multiTallyConfig_allow_all_screen_filter _ rfl).1 rfl _,
   ((multiTallyConfig_allow_all_screen_filter _ rfl).2.1 2 (by decide) rfl _).1,
   ((multiTallyConfig_allow_all_screen_filter _ rfl).2.1 2 (by decide) rfl _).2,
   (multiTallyConfig_allow_all_screen_filter
      (MultiTallyConfig.mk [] (some 2) true (some "")) rfl).2.2
      [SingleTallyConfig.mk (some 1) TallyType.rh_tally none (some "")] _⟩

/-- C8: no matching operation distinguishes `None` from the broadcast
wildcard 0xffff: for wildcard-twin configs, `matches`, `matches_screen`,
membership in any `MultiTallyConfig`, `normalize_screen` and
`normalize_tally_index` all agree, and the normalizers send both broadcast
forms to `None`. -/
theorem wildcard_none_interchangeable :
    ∀ c c' : SingleTallyConfig, c.wildcardTwin c' →
      ((∀ v : TallyArg, c.matches v = c'.matches v)
      ∧ (∀ v : ScreenArg, c.matches_screen v = c'.matches_screen v)
      ∧ (∀ m : MultiTallyConfig, m.contains (.inr c) = m.contains (.inr c'))
      ∧ normalize_screen (.single c) = normalize_screen (.single c')
      ∧ normalize_tally_index (.single c) = normalize_tally_index (.single c')
      ∧ (c.is_broadcast_screen = true →
          normalize_screen (.single c) = none ∧ normalize_screen (.single c') = none)
      ∧ (c.is_broadcast_tally = true →
          normalize_tally_index (.single c) = none ∧
          normalize_tally_index (.single c') = none)) := by
  intro c c' hTwin
  obtain ⟨hs, hi, ht, hn⟩ := hTwin
  have hbs : c.is_broadcast_screen = c'.is_broadcast_screen := by
    rcases hs with heq | ⟨ha | ha, hb | hb⟩ <;>
      simp [SingleTallyConfig.is_broadcast_screen, *]
  have h2 : normalize_screen (.single c) = normalize_screen (.single c') := by
    rcases hs with heq | ⟨ha | ha, hb | hb⟩ <;>
      simp [normalize_screen, SingleTallyConfig.is_broadcast_screen, *]
  have hbi : c.is_broadcast_tally = c'.is_broadcast_tally := by
    rcases hi with heq | ⟨ha | ha, hb | hb⟩ <;>
      simp [SingleTallyConfig.is_broadcast_tally, *]
  have h4 : normalize_tally_index (.single c) = normalize_tally_index (.single c') := by
    rcases hi with heq | ⟨ha | ha, hb | hb⟩ <;>
      simp [normalize_tally_index, SingleTallyConfig.is_broadcast_tally, *]
  have hms : ∀ v : ScreenArg, c.matches_screen v = c'.matches_screen v := by
    intro v
    simp only [SingleTallyConfig.matches_screen, hbs, h2]
  have hm : ∀ v : TallyArg, c.matches v = c'.matches v := by
    intro v
    simp only [SingleTallyConfig.matches, hms, ht, h4]
  have hper : ∀ t : SingleTallyConfig, t.matches (.inr c) = t.matches (.inr c') := by
    intro t
    simp only [SingleTallyConfig.matches, SingleTallyConfig.matches_screen,
      TallyArg.toScreenArg, TallyArg.toIndexArg, h2, h4, ht]
  refine ⟨hm, hms, ?_, h2, h4, ?_, ?_⟩
  · intro m0
    simp only [MultiTallyConfig.contains, MultiTallyConfig.matches_screen,
      TallyArg.toScreenArg, hms (.multi m0), hper]
  · intro hb
    constructor
    · simp [normalize_screen, hb]
    · simp [normalize_screen, hbs ▸ hb]
  · intro hb
    constructor
    · simp [normalize_tally_index, hb]
    · simp [normalize_tally_index, hbi ▸ hb]

/-- C8 witness: the interchange evaluated for a concrete pair of twins
differing by `screen_index = None` versus `0xffff`. -/
theorem wildcard_none_interchangeable_witness :
    (SingleTallyConfig.mk (some 3) TallyType.rh_tally none (some "")).matches
        (.inr (SingleTallyConfig.mk (some 3) TallyType.rh_tally (some 2) (some ""))) =
      (SingleTallyConfig.mk (some 3) TallyType.rh_tally (some 0xffff) (some "")).matches
        (.inr (SingleTallyConfig.mk (some 3) TallyType.rh_tally (some 2) (some "")))
    ∧ normalize_screen (.single (SingleTallyConfig.mk (some 3) TallyType.rh_tally none (some ""))) =
        normalize_screen
          (.single (SingleTallyConfig.mk (some 3) TallyType.rh_tally (some 0xffff) (some ""))) :=
  have htwin : (SingleTallyConfig.mk (some 3) TallyType.rh_tally none (some "")).wildcardTwin
      (SingleTallyConfig.mk (some 3) TallyType.rh_tally (some 0xffff) (some "")) :=
    ⟨Or.inr ⟨Or.inl rfl, Or.inr rfl⟩, Or.inl rfl, rfl, rfl⟩
  ⟨(wildcard_none_interchangeable _ _ htwin).1 _,
   (wildcard_none_interchangeable _ _ htwin).2.2.2.1⟩

theorem bind_to_tally_bound_inputs (o : OutputState) (id : String) (tally : Tally) :
    (o.bind_to_tally id tally).bound_inputs = o.bound_inputs := by
  cases h : lookupA o.bound_input_tally_keys tally.id <;>
    simp [OutputState.bind_to_tally, h]

theorem bindStep_bound_inputs (id : String) (st : OutputState) (tally : Tally) :
    (bindStep id st tally).bound_inputs = st.bound_inputs := by
  unfold bindStep
  split
  · exact bind_to_tally_bound_inputs st id tally
  · rfl

theorem foldl_bindStep_bound_inputs (id : String) :
    ∀ (l : List Tally) (st : OutputState),
      (l.foldl (bindStep id) st).bound_inputs = st.bound_inputs := by
  intro l
  induction l with
  | nil => intro st; rfl
  | cons hd tl ih =>
    intro st
    rw [List.foldl_cons, ih (bindStep id st hd), bindStep_bound_inputs]

theorem countP_key_eq_one (l : List (String × InputState)) (id : String)
    (hnd : (l.map Prod.fst).Nodup) (hmem : id ∈ l.map Prod.fst) :
    l.countP (fun p => p.1 = id) = 1 := by
  induction l with
  | nil => cases hmem
  | cons hd tl ih =>
    rw [List.map_cons, List.nodup_cons] at hnd
    rw [List.countP_cons]
    rcases List.mem_cons.mp hmem with h | h
    · have hzero : tl.countP (fun p => p.1 = id) = 0 := by
        rw [List.countP_eq_zero]
        intro p hp hcp
        exact hnd.1 (h ▸ (of_decide_eq_true hcp) ▸ List.mem_map_of_mem Prod.fst hp)
      simp [hzero, h.symm]
    · have hne : ¬ hd.1 = id := by
        intro he
        exact hnd.1 (he ▸ h)
      rw [ih hnd.2 h]
      simp [hne]

/-- C7: after a completed `bind_to_input(x)` call, a second sequential call
is a no-op returning the same state with no error, and `bound_inputs` holds
exactly one entry for `x.id` (baseio.py:339 returns early when the id is
already present). -/
theorem bind_to_input_idempotent :
    ∀ (o : OutputState) (x : InputState) (id : String) (o' : OutputState),
      x.id = some id →
      (o.bound_inputs.map Prod.fst).Nodup →
      o.bind_to_input x = .ok o' →
      (o'.bind_to_input x = .ok o'
      ∧ o'.bound_inputs.countP (fun p => p.1 = id) = 1) := by
  intro o x id o' hid hnd hbind
  unfold OutputState.bind_to_input at hbind
  cases hany : o.bound_inputs.any (fun p => some p.1 = x.id) with
  | true =>
    rw [hany, if_pos rfl] at hbind
    injection hbind with hbo
    subst hbo
    constructor
    · unfold OutputState.bind_to_input
      rw [hany, if_pos rfl]
    · obtain ⟨p, hp, hpe⟩ := List.any_eq_true.mp hany
      have hp1 : p.1 = id := by
        rw [hid] at hpe
        exact Option.some.inj (of_decide_eq_true hpe)
      exact countP_key_eq_one _ _ hnd (hp1 ▸ List.mem_map_of_mem Prod.fst hp)
  | false =>
    rw [hany] at hbind
    simp only [Bool.false_eq_true, if_false, hid] at hbind
    have hlk : lookupA o.bound_inputs id = none := by
      simp only [lookupA, Option.map_eq_none', List.find?_eq_none]
      intro p hp
      have hne := List.any_eq_false.mp hany p hp
      rw [hid] at hne
      simp only [decide_eq_true_eq] at hne ⊢
      intro he
      exact hne (by rw [he])
    rw [hlk] at hbind
    simp only [Option.isSome_none, Bool.false_eq_true, if_false, strInTallyKeys] at hbind
    injection hbind with hbo
    have hbi : o'.bound_inputs = o.bound_inputs ++ [(id, x)] := by
      rw [← hbo, foldl_bindStep_bound_inputs]
    constructor
    · unfold OutputState.bind_to_input
      have hany2 : o'.bound_inputs.any (fun p => some p.1 = x.id) = true := by
        rw [hbi, hid, List.any_eq_true]
        exact ⟨(id, x), by simp, by simp⟩
      rw [hany2, if_pos rfl]
    · rw [hbi, List.countP_append]
      have hzero : o.bound_inputs.countP (fun p => p.1 = id) = 0 := by
        rw [List.countP_eq_zero]
        intro p hp hcp
        have hne := List.any_eq_false.mp hany p hp
        rw [hid] at hne
        exact hne (by simp [of_decide_eq_true hcp])
      rw [hzero]
      simp

/-- C7 witness: binding the same one-tally input twice to an initially empty
output. -/
theorem bind_to_input_idempotent_witness :
    ∃ o' : OutputState,
      outW.bind_to_input inpW = .ok o'
      ∧ o'.bind_to_input inpW = .ok o'
      ∧ o'.bound_inputs.countP (fun p => p.1 = "i") = 1 := by
  refine ⟨_, rfl, ?_⟩
  exact bind_to_input_idempotent outW inpW "i" _ rfl (by decide) rfl

/-- C10: `bind_to_input` on an input whose id was never assigned stops at
`assert inp.id is not None` (baseio.py:342), which fires before any mutation
(the error result carries no state, and the source mutates `bound_inputs` and
`bound_input_tally_keys` only after the asserts); with an assigned id the
call always completes without any assertion firing. -/
theorem bind_to_input_requires_id :
    ∀ (o : OutputState) (x : InputState),
      (x.id = none → o.bind_to_input x = .error .assertionError)
      ∧ (∀ id : String, x.id = some id → ∃ o', o.bind_to_input x = .ok o') := by
  intro o x
  constructor
  · intro hid
    unfold OutputState.bind_to_input
    have hany : o.bound_inputs.any (fun p => some p.1 = x.id) = false := by
      rw [List.any_eq_false]
      intro p hp
      rw [hid]
      simp
    rw [hany]
    simp [hid]
  · intro id hid
    unfold OutputState.bind_to_input
    cases hany : o.bound_inputs.any (fun p => some p.1 = x.id) with
    | true => exact ⟨o, rfl⟩
    | false =>
      have hlk : lookupA o.bound_inputs id = none := by
        simp only [lookupA, Option.map_eq_none', List.find?_eq_none]
        intro p hp
        have hne := List.any_eq_false.mp hany p hp
        rw [hid] at hne
        simp only [decide_eq_true_eq] at hne ⊢
        intro he
        exact hne (by rw [he])
      refine ⟨x.tallies.foldl (bindStep id)
        { o with bound_inputs := o.bound_inputs ++ [(id, x)] }, ?_⟩
      simp only [Bool.false_eq_true, if_false, hid, hlk, Option.isSome_none, strInTallyKeys]

/-- C10 witness: the precondition evaluated on a concrete output with an
id-less and an id-carrying input. -/
theorem bind_to_input_requires_id_witness :
    outW.bind_to_input inpNoId = .error .assertionError
    ∧ ∃ o', outW.bind_to_input inpW = .ok o' :=
  ⟨(bind_to_input_requires_id outW inpNoId).1 rfl,
   (bind_to_input_requires_id outW inpW).2 "i" rfl⟩

theorem mergeFold_eq (bi : List (String × InputState)) (k : TallyKey) (tt : TallyType) :
    ∀ (l : List String) (acc : TallyColor),
      (∀ id ∈ l, ∃ inp, lookupA bi id = some inp ∧
          (inp.get_tally k = none → inp.get_tally_color k tt = none)) →
      (l.foldlM (fun acc id =>
          match lookupA bi id with
          | none => (.error .keyError : Except PyErr TallyColor)
          | some inp =>
            match inp.get_tally k with
            | none => pure acc
            | some _ =>
              match inp.get_tally_color k tt with
              | none => pure acc
              | some color => pure (acc ||| color)) acc)
        = .ok (l.foldl (fun acc id =>
            match (lookupA bi id).bind (fun inp => inp.get_tally_color k tt) with
            | none => acc
            | some color => acc ||| color) acc) := by
  intro l
  induction l with
  | nil => intro acc h; rfl
  | cons hd tl ih =>
    intro acc h
    obtain ⟨inp, hlk, himp⟩ := h hd (List.mem_cons_self hd tl)
    rw [List.foldlM_cons, List.foldl_cons, hlk]
    cases hgt : inp.get_tally k with
    | none =>
      have hcol := himp hgt
      simp only [hgt, hcol, Option.some_bind, pure_bind]
      exact ih acc (fun id hm => h id (List.mem_cons_of_mem hd hm))
    | some t =>
      cases hcol : inp.get_tally_color k tt with
      | none =>
        simp only [hgt, hcol, Option.some_bind, pure_bind]
        exact ih acc (fun id hm => h id (List.mem_cons_of_mem hd hm))
      | some c =>
        simp only [hgt, hcol, Option.some_bind, pure_bind]
        exact ih (acc ||| c) (fun id hm => h id (List.mem_cons_of_mem hd hm))

/-- C1: `get_merged_tally(k, t)` on a bare key equals the bitwise OR, from
`OFF`, of `get_tally_color(k, t)` over the bound inputs recorded under `k`
(`None` contributing nothing), for every state in which the recorded ids are
bound and an input with no tally stored at `k` reports no color for it (the
source skips such inputs, baseio.py:407-408); and in the two-input scenario
with color masks RED and GREEN, both on gives AMBER and both off gives OFF. -/
theorem get_merged_tally_or_of_bound_inputs :
    (∀ (o : OutputState) (k : TallyKey) (tt : TallyType),
        (∀ id ∈ o.idsUnder k, ∃ inp, lookupA o.bound_inputs id = some inp ∧
            (inp.get_tally k = none → inp.get_tally_color k tt = none)) →
        o.get_merged_tally (.inl k) tt = .ok (o.mergedTallySpec k tt))
    ∧ outOn.get_merged_tally (.inl (0, 0)) TallyType.rh_tally = .ok TallyColor.AMBER
    ∧ outOff.get_merged_tally (.inl (0, 0)) TallyType.rh_tally = .ok TallyColor.OFF := by
  refine ⟨?_, rfl, rfl⟩
  intro o k tt h
  exact mergeFold_eq o.bound_inputs k tt (o.idsUnder k) TallyColor.OFF h

/-- C1 witness: the general OR-equation applied to the concrete scenario
output. -/
theorem get_merged_tally_or_of_bound_inputs_witness :
    outOn.get_merged_tally (.inl (0, 0)) TallyType.rh_tally
      = .ok (outOn.mergedTallySpec (0, 0) TallyType.rh_tally) := by
  apply get_merged_tally_or_of_bound_inputs.1
  intro id hid
  have hl : OutputState.idsUnder outOn (0, 0) = ["r", "g"] := by decide
  rw [hl] at hid
  simp only [List.mem_cons, List.not_mem_nil, or_false] at hid
  rcases hid with rfl | rfl
  · exact ⟨inpR, by decide, fun hn => absurd hn (by decide)⟩
  · exact ⟨inpG, by decide, fun hn => absurd hn (by decide)⟩
